/-
  Verification development for the LATCH binary-descriptor kernel (LATCH.h).

  The C++ kernel is shallowly embedded:
  * pixel coordinates, keypoint fields and the SIMD float lanes are modelled
    over `ℚ` (the float operations `sin`/`cos` are abstracted as parameters
    `fsin fcos : ℚ → ℚ`, every other float operation of the kernel is affine
    arithmetic, a clamp, or a float→int conversion, modelled exactly);
  * `_mm_cvtps_epi32` rounds to nearest, ties to even (default MXCSR); it is
    modelled by `roundHalfEven`;
  * the image is the flat byte buffer of the source, a total map from an
    address (`row * stride + col`) to a byte;
  * 32-bit signed accumulation is modelled by exact integer sums together
    with the wrap `toInt32` at the single point where the source extracts
    the sign bit (`& 0x80000000`); a bound lemma shows the exact sum stays
    inside the `int32` range, so the wrap is the identity on it;
  * the descriptor output array is a map from byte offset to an optional
    byte; a worker that reads a keypoint index past the end of the keypoint
    vector (undefined behaviour in the source) stores `none`, recording that
    the model does not determine the value written there.
-/
import Mathlib

/-- Keypoint record of LATCH.h: position, scale and angle (radians). -/
structure KeyPoint where
  x : ℚ
  y : ℚ
  scale : ℚ
  angle : ℚ
deriving DecidableEq, Repr

/-- Round to nearest integer, ties to even: the semantics of
`_mm_cvtps_epi32` under the default rounding mode. -/
def roundHalfEven (q : ℚ) : ℤ :=
  if q - ⌊q⌋ < 1/2 then ⌊q⌋
  else if 1/2 < q - ⌊q⌋ then ⌊q⌋ + 1
  else if Even ⌊q⌋ then ⌊q⌋ else ⌊q⌋ + 1

/-- One x-lane of lines 589-591 of LATCH.h: `xs = ox * (scale/7)`,
rotate (`xs*cosθ − ys*sinθ`), clamp via `max` then `min`, translate by
`pt.x`, convert to integer. -/
def sampleX (fsin fcos : ℚ → ℚ) (kp : KeyPoint) (ox oy : ℚ) : ℤ :=
  roundHalfEven
    (min (max (ox * (kp.scale / 7) * fcos kp.angle
               - oy * (kp.scale / 7) * fsin kp.angle) (-32)) 32 + kp.x)

/-- One y-lane of lines 590-592 of LATCH.h: `xs*sinθ + ys*cosθ`,
clamped, translated by `pt.y`, converted to integer. -/
def sampleY (fsin fcos : ℚ → ℚ) (kp : KeyPoint) (ox oy : ℚ) : ℤ :=
  roundHalfEven
    (min (max (ox * (kp.scale / 7) * fsin kp.angle
               + oy * (kp.scale / 7) * fcos kp.angle) (-32)) 32 + kp.y)

/-- Modelled from the spec (§4.3 step 2-3), for comparison with `sampleX`:
scale the offset, rotate, clamp to [-32,32], translate by the center,
round half to even. -/
def specSampleX (fsin fcos : ℚ → ℚ) (kp : KeyPoint) (ox oy : ℚ) : ℤ :=
  let s := kp.scale / 7
  let rx := ox * s * fcos kp.angle - oy * s * fsin kp.angle
  let cl := if rx < -32 then -32 else if 32 < rx then 32 else rx
  roundHalfEven (kp.x + cl)

/-- Modelled from the spec (§4.3 step 2-3), for comparison with `sampleY`. -/
def specSampleY (fsin fcos : ℚ → ℚ) (kp : KeyPoint) (ox oy : ℚ) : ℤ :=
  let s := kp.scale / 7
  let ry := ox * s * fsin kp.angle + oy * s * fcos kp.angle
  let cl := if ry < -32 then -32 else if 32 < ry then 32 else ry
  roundHalfEven (kp.y + cl)

/-- A pixel read from the flat image buffer, as an integer in [0, 255]. -/
def pix (im : ℤ → Fin 256) (a : ℤ) : ℤ := (im a : ℤ)

/-- Lines 599-616 of LATCH.h: the accumulated value
`Σ (A−B)² − Σ (C−B)²` over the 8×8 window (rows −3..4, columns −3..4
around each sample center), written as an exact integer sum.  The SIMD
lanes of the source sum the same 64 window terms; the bound
`winSum_abs_le` below shows every intermediate value fits in an `int32`, so
the wrapping lane arithmetic of the source computes this same value. -/
def winSum (im : ℤ → Fin 256) (stride ax ay bx bY cx cy : ℤ) : ℤ :=
  ∑ py ∈ Finset.Icc (-3 : ℤ) 4, ∑ dx ∈ Finset.Icc (-3 : ℤ) 4,
    ((pix im (stride * (ay + py) + ax + dx) - pix im (stride * (bY + py) + bx + dx)) ^ 2
     - (pix im (stride * (cy + py) + cx + dx) - pix im (stride * (bY + py) + bx + dx)) ^ 2)

/-- Wrap an integer to the value of its lowest 32 bits read as a signed
32-bit integer. -/
def toInt32 (n : ℤ) : ℤ := (n + 2 ^ 31) % 2 ^ 32 - 2 ^ 31

/-- Line 616 of LATCH.h: `(sum & 0x80000000) >> (31 - bit)` — the sign
bit of the 32-bit accumulated sum, isolated and moved to position `bit`.
`(n.emod 2^32).toNat` is the lowest 32 bits of the accumulator. -/
def bitContrib (n : ℤ) (bit : ℕ) : ℕ :=
  ((n % 4294967296).toNat &&& 2147483648) >>> (31 - bit)

/-- Slice 0 of the LATCH.h triplet table. -/
def tripletsPart0 : List Int := [
  -5, -16, -9, 1, 16, -21, -7, -10, -3, 16, -14, 9,
  11, 7, 3, 6, 15, -11, -22, -12, -22, 2, 12, 21,
  17, 2, 14, -10, 10, -18, 22, -2, 23, -14, -20, 5,
  4, 24, 4, 16, -11, -21, 13, 19, 23, -6, 19, -4,
  22, 1, -10, 7, -8, 6, -5, 19, -6, 18, 11, -16,
  12, 24, 20, -9, 20, -20, -3, 5, 10, -14, -21, 19,
  -3, -17, -5, 9, -1, -19, 7, 22, 13, -2, -23, 20,
  19, -1, 15, 12, -19, -9, -19, -2, -22, 2, -9, 24,
  -2, -11, -3, -21, -18, 7, 23, 4, 17, 8, 7, -19,
  16, 10, 20, 18, -23, 4, -6, -1, 6, 22, -11, -14,
  -24, 15, -23, -15, -14, -11, 24, 18, 14, -13, -14, -19,
  -17, -11, -21, 10, -12, -17, 19, 3, -2, -4, 8, 19,
  -18, -8, -18, -3, -15, 5, -6, 1, -6, -13, 16, 23,
  -22, -4, -15, -8, -5, 20, 9, -6, 10, 13, -23, 15,
  20, 11, 9, 12, -24, 22, -19, -1, -20, -4, 5, 2,
  -24, 15, -19, 4, -16, -5, -23, -11, -16, 10, 5, 19,
  -3, -22, -7, 5, 23, -22, -15, -9, -21, 2, 21, 20,
  -18, 16, -12, 11, -10, 4, 2, 14, 6, -7, -13, 20,
  3, 23, 5, 15, -23, -9, 1, -1, -3, 8, -4, 7,
  -22, -1, 16, 16, 19, -12, 14, 9, 19, -12, 13, 12,
  21, -22, 15, 2, -17, 3, 0, 11, 8, 5, -22, 18,
  -15, 13, -18, 9]

/-- Slice 1 of the LATCH.h triplet table. -/
def tripletsPart1 : List Int := [
  3, -17, -12, 8, -21, 10, 5, -18, 19, 0, -12, 17,
  18, -7, -14, 1, -12, -20, -7, -2, 24, 3, -16, 15,
  -22, 7, -17, 24, -24, 13, -14, -24, -7, -4, -1, -23,
  10, 20, -8, -1, -5, -13, 20, -22, 13, 16, 0, -22,
  16, -14, -10, 0, -9, 12, -9, -16, 20, -2, 19, 15,
  -19, -15, -19, 22, -14, 19, 23, -2, -24, 10, -8, 16,
  -3, -1, -22, 18, -23, -15, 23, 21, 9, 9, 21, 10,
  -23, -24, -17, 12, -12, -19, -23, -8, 19, 0, -18, 17,
  -16, -19, -19, -7, -14, 21, 20, 3, 20, 8, 17, -2,
  0, -10, -15, 6, -21, 24, 2, -22, -18, 8, -24, 12,
  19, -14, 16, -13, 24, -1, -16, -18, 23, 4, 20, -1,
  -10, 22, 22, 2, 16, -14, -22, 11, -14, 24, -9, -19,
  -16, -6, 11, 0, -20, -5, 24, -12, 17, -9, 18, 16,
  1, -15, 15, -24, 24, -10, 16, 11, 5, -3, 4, 3,
  -16, -2, 9, -15, 7, 19, -18, -19, 11, -5, 14, 6,
  22, -10, -8, 17, -19, -3, 24, 17, 13, 24, 9, 16,
  -20, -4, 7, 16, 8, -6, 11, 1, 3, 18, 20, 23,
  15, -24, 22, 2, -12, 15, 18, -10, -15, 11, -13, 13,
  9, 9, -10, 17, -13, -9, 13, -13, 22, -11, 20, 15,
  7, -9, 18, -11, 17, 0, 16, 11, 22, -19, 24, -18,
  -3, -15, 22, -5, 19, 20, 16, -23, 21, 0, -17, 14,
  -8, 2, 9, 2]

/-- Slice 2 of the LATCH.h triplet table. -/
def tripletsPart2 : List Int := [
  7, 0, 3, 12, 7, -12, 13, 18, 8, -24, -5, -15,
  -22, -11, -10, 9, 19, 20, 24, 24, 6, -11, -10, 2,
  -17, 6, -2, -21, 19, 21, 21, -17, 21, -13, -11, -20,
  -9, 3, -5, -8, -3, -7, -1, -20, 23, -9, -3, 22,
  -1, 21, -12, 3, -19, 2, -24, -4, -3, 17, -16, 2,
  -19, 10, 1, 20, -9, -20, -17, 21, -17, 22, -18, -9,
  -12, 7, 19, -5, 22, 8, 11, 6, -7, 22, -24, 5,
  -24, 10, -15, -20, 10, -22, 9, 20, -4, -20, -24, 0,
  -23, 6, -13, -15, 22, -3, 19, -20, 24, 5, 10, -1,
  8, -23, -9, -5, -9, 23, -22, -6, 0, 13, -9, 23,
  -17, -7, -13, -20, 20, -21, 22, 7, 15, -5, 24, -24,
  12, 24, 22, -12, 16, -18, 9, -13, 11, -6, -10, 2,
  18, -9, 15, 18, -18, 1, -24, 3, 24, 20, -23, -22,
  -17, 6, -12, 7, -19, -18, -2, -18, 22, 13, -22, 4,
  -22, 24, 8, 2, 7, 10, 20, -12, 19, 21, -18, 3,
  -16, -7, 8, 5, -20, 4, -17, -14, -9, -8, -7, -20,
  -20, -6, 18, -3, 0, 4, 18, 4, -8, -8, -15, 1,
  -17, -18, -22, 10, 8, 21, 24, 13, 17, -3, 14, 6,
  17, 10, -24, -10, -22, 12, -18, 8, -8, 23, -13, 21,
  -15, -8, 18, 11, 20, 7, 5, 17, 7, -24, -7, 1,
  9, -12, 14, 17, 16, -24, 24, 11, -2, 21, 10, -15,
  21, 9, 15, 16]

/-- Slice 3 of the LATCH.h triplet table. -/
def tripletsPart3 : List Int := [
  -10, 14, -22, 3, -11, 8, 22, -22, 14, -13, 4, 3,
  -1, 23, -2, 21, -14, -17, 16, -7, 19, -7, -23, 6,
  21, -15, 6, -22, 6, -4, 11, -1, -10, 7, -21, -4,
  -10, -2, -13, -23, 23, 5, -21, 18, -8, -24, 11, 5,
  -18, 23, -21, -24, -16, 16, -8, 19, -23, 6, -13, 23,
  -24, -16, -1, -23, 13, -11, -23, 12, -24, -10, 1, 2,
  -14, 2, -20, -20, -11, 24, -1, 20, -6, -4, -22, -19,
  12, 13, 15, 2, -16, 1, 11, -24, 24, 13, 10, 21,
  -10, 8, -13, -12, 10, 24, 23, -13, 16, 10, -14, 10,
  0, -21, 0, 22, 20, 18, 24, -13, 18, 7, 7, 19,
  -10, -24, -13, -24, -20, -5, 19, 0, 21, -4, 21, 16,
  0, -13, -2, -15, 24, 9, -12, -10, -6, 19, 6, -16,
  -10, -4, -14, 4, -22, -8, 24, -18, 20, -7, 24, -1,
  18, -8, 23, 7, 3, -11, -20, -11, -5, -6, 17, -19,
  12, 1, 12, 0, -11, -16, 22, -2, -24, -1, -3, 22,
  17, -7, 17, 17, 17, -12, -22, -17, -6, -6, 14, 11,
  -11, -4, -2, -13, -9, -18, -24, 12, -16, 16, -5, 13,
  -20, 15, -14, 23, -10, -16, 21, -18, 12, 13, 0, -12,
  -18, -20, -18, 14, -22, 12, -16, 3, -17, 21, -3, -15,
  12, 15, 5, 15, -19, 4, 15, -16, 17, -8, 20, 23,
  -21, 7, -7, 19, -2, 1, -22, 21, -21, 13, 19, -10,
  9, 21, 6, 0]

/-- Slice 4 of the LATCH.h triplet table. -/
def tripletsPart4 : List Int := [
  -23, -24, -24, 4, -24, 13, 16, -13, -8, 15, -11, -18,
  23, 23, 18, 2, 15, 10, 23, 6, -14, 22, -21, -14,
  9, 17, 3, -24, -2, -12, 0, -3, 18, -9, 19, 18,
  7, 17, 20, -20, 11, -11, 0, 4, 5, 11, 18, -7,
  -22, -5, -15, 24, -17, -23, 22, 18, -23, -15, -7, -5,
  -14, 11, -3, 3, -4, -7, 17, -13, 19, -2, 17, -19,
  24, 1, 2, 8, 11, -21, 20, -12, 22, -9, 8, 11,
  -14, -4, -19, 20, -22, 2, -14, 23, 9, -24, 9, -17,
  -22, 17, 6, -1, -4, -21, 0, 18, 8, -9, 12, -13,
  -23, 13, 7, -13, 16, -2, 5, -5, -19, 9, -10, -23,
  23, 9, 1, 24, 4, -17, -24, 3, 10, -2, 12, -5,
  -1, 15, 22, 6, -6, 11, 20, -9, 24, 8, -7, -22,
  23, -10, 3, 5, 2, 8, -6, 14, 13, -10, 7, -12,
  11, 11, 16, -7, 21, -13, -7, -12, 9, 14, 5, -8,
  18, -9, 12, -2, 8, -22, 13, 21, 3, -3, -10, -1,
  -2, 19, -13, 7, -21, -8, -5, -17, 16, -4, 18, -14,
  -22, 17, 13, 23, 12, 2, -2, 5, -12, -4, -14, 1,
  9, -2, -17, 6, -12, 22, -9, -13, -9, 22, -24, 2,
  -1, -10, -14, -23, -13, 14, 6, -3, -23, 7, -23, -12,
  12, 16, -6, 4, 3, 20, 22, -20, 5, 14, 3, -15,
  12, -13, 19, -11, 24, -22, -12, -20, 9, -12, 16, 17,
  21, 24, -20, -10]

/-- Slice 5 of the LATCH.h triplet table. -/
def tripletsPart5 : List Int := [
  -14, -9, 16, -21, -7, -23, -4, -20, 10, -8, 18, -14,
  20, 6, 24, 10, -2, 4, 10, -21, -16, -2, -18, -11,
  -15, -12, 14, -21, 14, -15, 18, -7, -17, -2, 12, -1,
  20, 18, 0, 7, -13, -12, -17, 14, 23, 18, 21, -5,
  24, -7, -15, -6, 1, 16, -5, 1, 9, 18, 22, -4,
  22, 3, 18, 8, -10, 6, -16, 9, 4, -24, 5, -4,
  -18, -18, -12, -24, -16, -6, -19, -19, 18, 23, 19, -23,
  23, -4, -10, -13, 13, -6, 19, 8, 19, -6, 8, -17,
  12, -17, 0, 22, 8, 7, 22, 22, -22, -22, 22, -19,
  19, -23, -17, 16, 0, 21, 13, 12, 21, -22, -19, -15,
  -12, 3, -16, 1, -1, 22, -1, -24, 19, 13, -9, 14,
  -6, 7, 24, -1, -18, -11, -18, -3, -22, -5, -13, 1,
  15, 9, 18, 7, -5, 10, 24, 12, -24, 22, -7, 0,
  -1, -15, 3, 24, 21, -23, 19, -16, -5, 8, 18, -12,
  14, 18, -16, -5, -20, 16, -20, 19, -2, -19, -20, 22,
  -23, -13, 21, -3, 19, -16, 23, -19, 24, 7, -19, -1,
  18, 5, 20, 15, 13, 22, 24, -11, 3, -14, -19, 14,
  -23, -9, 12, 17, -6, 14, -9, -1, -22, -9, 19, -1,
  -21, -18, 23, -10, 22, 17, 14, 1, -12, -23, 7, 0,
  -3, -8, 8, 21, 24, -2, 24, 2, -6, -12, 8, 2,
  9, 14, -3, 6, -10, -3, -11, -24, 18, -5, -12, -20,
  -7, 12, -5, -6]

/-- Slice 6 of the LATCH.h triplet table. -/
def tripletsPart6 : List Int := [
  -17, -2, -17, -21, -15, -15, 5, 21, 9, -15, -23, -12,
  -10, 10, -8, 10, 4, 7, 23, -3, 9, 4, 11, 4,
  -1, -9, -21, -21, 22, -4, -12, 19, -15, -3, -24, 0,
  -24, -8, -19, 9, 17, -7, 20, -16, 21, -24, -11, 19,
  11, -21, 19, -14, 23, -21, 23, -9, 20, 7, 17, -6,
  -18, -5, 5, 21, -17, 11, -3, -15, -21, -16, -13, 11,
  14, -2, -20, 3, 2, -17, -16, 19, -12, -21, -3, 15,
  21, 19, 5, 20, -6, -1, 21, 9, 1, 12, 23, -9,
  9, -6, 22, 7, 6, 0, 4, 14, 23, -21, -4, 18,
  -6, -12, -23, -24, -13, 9, 14, 22, 6, 21, -19, -9,
  -2, -8, -5, 22, -16, 23, -3, 23, -3, 19, 10, -18,
  -22, 7, -19, 21, 12, -12, -9, 23, -16, -6, -24, 7,
  1, 6, 14, 21, 15, -3, 4, -2, -11, 18, 10, 20,
  3, 23, 23, -20, -13, 23, 11, 21, 20, -12, 19, -8,
  14, 14, 13, -4, 22, -14, 14, 23, 10, -12, 7, 21,
  2, 4, 11, -20, -13, -11, 14, 8, 16, -13, 24, -14,
  -9, 17, -13, -8, -3, 21, -17, 4, -17, 16, 0, 24,
  -22, -15, -1, 18, -24, 8, -16, -7, -14, -10, 22, 5,
  1, 11, -1, -24, -9, 10, 7, -12, 14, 9, -4, 18,
  21, 15, 5, -3, -23, -5, 16, 8, 18, 24, -11, 23,
  17, -1, 18, -12, 13, 19, -18, 10, -14, 12, -14, 24,
  -4, -5, -9, 20]

/-- Slice 7 of the LATCH.h triplet table. -/
def tripletsPart7 : List Int := [
  12, 20, 16, -5, 15, -8, -20, -7, -24, 5, -16, 10,
  -11, -6, -21, 12, -24, -15, 14, -15, 21, -1, 19, 6,
  -5, 19, 24, 12, 3, 10, 12, -15, -22, 1, -17, -13,
  -4, 4, 19, -8, 22, -12, 14, -23, 11, -9, 16, -4,
  -10, 2, -24, -8, 5, 21, -21, 14, 14, -21, 22, -11,
  -8, -22, -23, -1, 19, -5, -11, 13, 13, 5, 4, -12,
  18, -24, -13, 2, -14, 22, 9, 19, 13, -15, 9, 22,
  19, -17, -3, 4, -3, 5, -2, -14, 11, 2, 4, -21,
  -15, 2, -17, -5, -16, -1, 15, -20, 15, 0, 7, -7,
  -20, 0, -2, 23, -1, 12, -19, -10, -3, 13, 19, -18,
  15, -23, -21, 5, -19, 10, 3, 18, -17, 9, -16, -12,
  19, 24, -20, -1, -24, -24, -22, -9, 12, -16, 18, -5,
  -19, -6, -12, 10, -8, -23, 8, -11, 17, -8, 15, 21,
  -13, 11, 11, 24, 11, 14, -23, 6, 15, 7, 19, 22,
  -23, 14, -4, 21, -2, 18, 7, 5, 23, 24, 10, 10,
  -24, 10, -14, -4, -21, 24, 3, 2, 2, 24, 6, -6,
  7, 24, 14, -16, 18, -8, -15, 11, -21, -8, -20, 0,
  14, 23, -23, 11, -24, 22, 7, 22, 7, 24, 9, 19,
  0, 23, 14, -6, 20, -9, 7, -23, 20, 9, 13, 1,
  9, 21, -11, -1, 9, -11, 15, 23, 8, -9, 23, 2,
  10, 21, -19, 4, -19, -22, -2, 20, 14, 20, 19, -23,
  1, 23, 12, -1]

/-- Slice 8 of the LATCH.h triplet table. -/
def tripletsPart8 : List Int := [
  -15, 22, 13, -18, 24, -5, 21, 11, 6, 12, 11, -2,
  12, 5, 15, 7, -16, 10, -15, -13, 10, 17, -18, -15,
  -19, -5, 3, 8, 12, 12, 14, -9, 20, -12, -13, -23,
  -22, -18, -8, 13, 15, -22, 16, -18, 18, 14, 7, 23,
  20, -9, 2, -16, -17, -7, -24, -23, 9, 23, 9, -5,
  5, -22, -16, -11, -22, -11, -20, 11, -2, 14, 11, 8,
  16, -24, 18, -14, 17, 1, -6, 12, 7, 18, 4, 8,
  7, -19, 4, 18, -10, -1, -19, 19, -23, -23, -1, 23,
  1, 5, 13, -24, -16, 14, -19, -19, 21, -22, -9, -23,
  -9, 5, 16, 3, 12, 21, 13, 11, 15, 23, -21, 23,
  -21, -12, -24, -17, -14, -8, -5, -21, 13, -1, 17, 24,
  10, 19, -4, 6, 21, -24, 13, -22, -2, -8, 23, -16,
  21, -6, -5, -15, -12, 14, -11, -8, -6, 5, -5, 9,
  16, 9, -23, 24, 12, -24, 22, 8, 19, 2, -10, 0,
  18, 23, 3, -22, -19, 3, -12, -20, 15, 6, -23, 19,
  -23, 5, -3, 23, 24, 8, 4, 10, 24, -3, 8, 15,
  7, -23, -2, 20, 19, 18, 23, 4, -24, 6, -9, -23,
  -6, 16, -2, 2, 10, 7, 12, -1, 21, 7, -6, 2,
  20, 16, 5, 6, 11, 3, -4, -14, 9, -12, 13, -17,
  11, -22, 23, 15, 11, 1, 17, 22, 4, -3, 18, -9,
  21, 11, -14, -23, -9, 14, -14, -3, 14, 4, 12, -4,
  21, 0, -24, 16]

/-- Slice 9 of the LATCH.h triplet table. -/
def tripletsPart9 : List Int := [
  -21, 6, -16, -15, -23, -20, 14, -22, 0, -20, -13, 1,
  7, -12, 13, 0, -15, -11, 16, 0, 10, 17, -1, 21,
  14, 2, -9, -18, 24, -5, -12, 23, -10, -6, 8, 9,
  16, 0, -14, 24, -10, -16, -21, -14, -23, 12, -21, 13,
  -21, 21, -21, -24, 2, -15, 1, 19, 13, 8, 8, -23,
  -8, 6, 17, -19, -24, 7, -24, 18, -21, 10, 20, -24,
  3, 11, -4, 0, 22, -12, 8, 5, 18, -3, 17, 10,
  -21, 18, -21, 18, -22, -6, -9, 2, -5, 24, -17, 4,
  2, 6, 5, 5, -24, 21, 20, -24, 5, -17, 16, -3,
  -10, -2, 5, 5, -22, -9, -3, -13, -21, -12, 4, 23,
  6, 8, 3, 24, 13, -8, 5, 19, 11, -6, 10, 22,
  -18, 17, -18, -10, -18, 10, 20, 21, 21, 17, -3, 18,
  -23, 15, -19, 2, -21, -10, -16, 22, -18, -18, 2, 22,
  2, 0, 5, 19, -8, 7, 5, -21, 4, 4, -14, 2,
  -16, 1, 18, 19, 15, 4, -15, -2, -20, -6, -18, -8,
  -19, -7, 0, -21, 10, -23, -15, 1, -16, 22, 7, 0,
  20, 12, 22, -12, 18, 1, 23, 14, 13, -2, 23, -2,
  5, 16, 3, -1, -7, 9, -11, 11, -13, -11, -20, -23,
  -22, 9, -20, 2, -23, -3, 2, -1, 17, 3, 24, 19,
  -11, 1, -24, 3, 20, 20, -15, -8, -20, 12, -14, -11,
  20, -8, 19, -14, -14, 9, -24, 15, -8, -22, 9, -4,
  22, 0, 0, -7]

/-- Slice 10 of the LATCH.h triplet table. -/
def tripletsPart10 : List Int := [
  24, -3, 19, -17, 23, -17, 1, 11, -24, 3, -16, -18,
  15, -7, 10, -10, 9, 0, 23, 4, 9, 2, 15, 9,
  -20, -23, 16, 11, 7, -19, 8, 23, 17, -14, 21, -17,
  -18, -14, -10, 11, -10, -24, 2, 13, 24, 7, -2, 15,
  -3, 11, -20, 18, -9, 21, 4, -7, -5, -18, -23, 10,
  -6, 11, 9, 0, 13, -1, -24, -12, 17, 10, 1, -1,
  -23, 15, 24, -8, 24, -2, -4, 14, -18, 0, 18, 6,
  -24, -23, 16, -19, 11, -9, -18, -1, -24, -5, -23, -3,
  22, 15, -23, 0, -19, -15, 9, 12, 3, -11, 3, -10,
  22, -21, -3, -21, -14, -15, -20, 19, 22, 8, 1, -21,
  -11, 23, -9, -4, -10, -17, -9, -2, 15, 20, 9, 20,
  -24, 3, -16, 19, -19, -16, 0, -21, 17, 12, 8, 9,
  -12, 11, 19, -23, 12, 12, 2, 0, 24, -11, 24, -16,
  -22, -19, 18, 1, -7, -2, 5, -23, 10, 23, 2, -21,
  1, -10, 15, -24, 16, -11, 4, 1, 16, -20, 14, -13,
  -6, 13, 12, 15, 10, 6, -12, -20, -23, 13, -18, -5,
  21, 1, -19, -7, -23, -1, -21, -15, -21, -9, -18, -8,
  -7, -15, 0, 18, -2, -17, -12, 10, -22, -2, 19, 21,
  -14, 22, 24, 6, 18, 1, 21, -19, 14, -14, 15, 12,
  3, 17, -14, -3, 4, -13, 5, 12, 12, 22, 24, -11,
  -9, -23, 0, 11, 11, 9, -20, 1, 12, 12, 18, 16,
  -4, 9, 19, -2]

/-- Slice 11 of the LATCH.h triplet table. -/
def tripletsPart11 : List Int := [
  -23, -17, 11, 22, 15, 13, 22, -4, 17, -3, -9, 11,
  -13, -2, -14, -5, 5, -12, 14, -4, 18, -12, 21, 2,
  -19, 8, -23, 8, -10, 0, 8, -17, 12, 19, 18, 2,
  10, -18, -21, 13, 13, -3, 19, 4, -19, 1, -21, 8,
  -24, -10, -1, -23, 18, 9, 9, 9, 20, 3, -11, 18,
  -5, -24, -23, 3, -15, 17, -19, -13, 12, 19, 13, 3,
  13, -14, -15, -23, 10, -23, 16, -10, -2, 16, -14, -23,
  -6, -21, 19, -6, -5, -14, -2, 21, -8, 11, 13, 16,
  15, 6, -24, 14, -21, -8, -1, -21, 1, 14, 19, 14,
  9, -19, 5, 21, 8, -18, 17, -6, 12, 1, -19, 14,
  -21, -11, -13, 23, 12, -3, 9, -18, -17, -14, 12, 21,
  19, 16, -11, 19, -23, -3, 14, 22, -24, 20, -7, 13,
  -18, -5, -18, -23, -22, -9, -10, -15, -18, 16, -5, -12,
  -4, 18, 10, -16, 9, -15, 17, -10, 6, 16, 16, -1,
  -20, -6, -7, -20, -24, -18, -13, -1, 8, -2, 16, 6,
  18, -22, 11, -12, 4, -15, 1, 16, -20, 6, 17, 2,
  21, 23, 15, -4, 21, -24, 13, 3, 21, 8, -4, 4,
  -12, -1, 19, -7, 11, 5, -2, -12, -21, -13, -19, -11,
  -20, 20, -2, -24, 11, -1, -3, 20, -4, -23, 11, -1,
  14, 2, 7, -2, -16, -1, -17, 23, -8, -14, 21, 6,
  10, -15, 19, -24, 15, 12, 1, -23, -6, 11, -19, 19,
  -18, 17, 0, -8]

/-- Slice 12 of the LATCH.h triplet table. -/
def tripletsPart12 : List Int := [
  0]

/-- Lines 60-574 of LATCH.h: the constant triplet table, 512 triplets of
6 values each (stored as `ax, bx, cx, ay, by, cy`) plus the trailing 0,
assembled from the slices above. The source stores the values as `float`;
every entry is integral. -/
def triplets : List Int :=
  tripletsPart0 ++ tripletsPart1 ++ tripletsPart2 ++ tripletsPart3 ++ tripletsPart4 ++ tripletsPart5 ++ tripletsPart6 ++ tripletsPart7 ++ tripletsPart8 ++ tripletsPart9 ++ tripletsPart10 ++ tripletsPart11 ++ tripletsPart12

/-- Entry `6*t + j` of the triplet table: lane `j` of the two unaligned
loads at lines 589-590 of LATCH.h for triplet `t` (`j < 3`: x offsets of
A, B, C; `j ≥ 3`: y offsets). -/
def tripAt (t j : ℕ) : ℚ := ((triplets.getD (6 * t + j) 0 : ℤ) : ℚ)

/-- The accumulated comparison value for keypoint `kp` and triplet `t`:
lines 589-615 of LATCH.h.  The three sample centers come from lanes 0-2
of the rotate/clamp/convert pipeline. -/
def tripletSum (fsin fcos : ℚ → ℚ) (im : ℤ → Fin 256) (stride : ℤ)
    (kp : KeyPoint) (t : ℕ) : ℤ :=
  winSum im stride
    (sampleX fsin fcos kp (tripAt t 0) (tripAt t 3))
    (sampleY fsin fcos kp (tripAt t 0) (tripAt t 3))
    (sampleX fsin fcos kp (tripAt t 1) (tripAt t 4))
    (sampleY fsin fcos kp (tripAt t 1) (tripAt t 4))
    (sampleX fsin fcos kp (tripAt t 2) (tripAt t 5))
    (sampleY fsin fcos kp (tripAt t 2) (tripAt t 5))

/-- Lines 586-617 of LATCH.h: byte `fragment` of the descriptor of `kp`.
The byte starts at 0 and each of the 8 triplets `8*fragment + bit` ORs
in its `bitContrib`. -/
def descBytes (fsin fcos : ℚ → ℚ) (im : ℤ → Fin 256) (stride : ℤ)
    (kp : KeyPoint) (fragment : ℕ) : ℕ :=
  (List.range 8).foldl
    (fun acc bit =>
      acc ||| bitContrib (tripletSum fsin fcos im stride kp (8 * fragment + bit)) bit)
    0

/-- The byte a worker stores at output offset `j`: byte `j % 64` of the
descriptor of keypoint `j / 64` (line 578: slot `i` starts at byte
`64*i`).  If `j / 64` is past the end of the keypoint vector the source
reads out of bounds (undefined behaviour); the model records `none`. -/
def slotVal (fsin fcos : ℚ → ℚ) (im : ℤ → Fin 256) (stride : ℤ)
    (ks : List KeyPoint) (j : ℕ) : Option ℕ :=
  match ks.get? (j / 64) with
  | some kp => some (descBytes fsin fcos im stride kp (j % 64))
  | none => none

/-- The function `_LATCH(start, thread_stride, ...)` of lines 576-620 as a
transformer of the output buffer: every byte of slots
`start ≤ i < start + count` is overwritten with its descriptor byte, all
other bytes are untouched. -/
def workerRun (fsin fcos : ℚ → ℚ) (im : ℤ → Fin 256) (stride : ℤ)
    (ks : List KeyPoint) (start count : ℕ) (buf : ℕ → Option ℕ) : ℕ → Option ℕ :=
  fun j =>
    if 64 * start ≤ j ∧ j < 64 * (start + count) then slotVal fsin fcos im stride ks j
    else buf j

/-- Line 624 of LATCH.h: the predicate of the `remove_if` lambda,
`kp.x <= 36 || kp.y <= 36 || kp.x >= width - 36 || kp.y >= height - 36`
(the `int` values `width - 36` and `height - 36` are converted for the
float comparison). -/
def borderPred (w h : ℤ) (kp : KeyPoint) : Bool :=
  kp.x ≤ 36 || kp.y ≤ 36 || ((w - 36 : ℤ) : ℚ) ≤ kp.x || ((h - 36 : ℤ) : ℚ) ≤ kp.y

/-- Line 624 of LATCH.h: the erase/remove_if step, keeping (in order)
exactly the keypoints that fail the border predicate. -/
def borderFilter (w h : ℤ) (ks : List KeyPoint) : List KeyPoint :=
  ks.filter (fun kp => !borderPred w h kp)

/-- Line 627 of LATCH.h: `min(sz >> 4, hardware_concurrency())`. -/
def latchHw (sz hc : ℕ) : ℕ := min (sz / 16) hc

/-- Line 630 of LATCH.h: `thread_stride = (sz - 1) / hw_concur + 1`. -/
def latchTs (sz hw : ℕ) : ℕ := (sz - 1) / hw + 1

/-- Line 632 of LATCH.h: the number of workers launched inside the loop,
`min(sz - 1, hw_concur - 1)`; one more worker is launched after it. -/
def latchK (sz hw : ℕ) : ℕ := min (sz - 1) (hw - 1)

/-- Lines 631-635 of LATCH.h: the (start, count) ranges handed to the
workers — `latchK` chunks of size `latchTs` at stride `latchTs`, then a
final chunk from `latchK * latchTs` to `sz`.  In the source the final
count `sz - start` is a possibly negative `int` over which `_LATCH`
iterates not at all; truncated subtraction models that. -/
def latchChunks (sz hw : ℕ) : List (ℕ × ℕ) :=
  (List.range (latchK sz hw)).map (fun i => (i * latchTs sz hw, latchTs sz hw))
    ++ [(latchK sz hw * latchTs sz hw, sz - latchK sz hw * latchTs sz hw)]

/-- The keypoint indices processed by the dispatched workers, in order. -/
def latchProcessed (sz hw : ℕ) : List ℕ :=
  (latchChunks sz hw).flatMap (fun c => List.range' c.1 c.2)

/-- Lines 622-645 of LATCH.h: the `LATCH<multithread>` entry point.
Filters the keypoints, then either dispatches the chunked workers (the
buffer updates commute because the chunks are disjoint, so the fold in
chunk order is the model of the concurrent execution) or runs one worker
over the whole range.  Returns the filtered list and the final buffer. -/
def runLATCH (mt : Bool) (hc : ℕ) (fsin fcos : ℚ → ℚ) (im : ℤ → Fin 256)
    (stride w h : ℤ) (ks0 : List KeyPoint) (buf : ℕ → Option ℕ) :
    List KeyPoint × (ℕ → Option ℕ) :=
  let ks := borderFilter w h ks0
  let sz := ks.length
  if mt then
    if 1 < latchHw sz hc then
      (ks, (latchChunks sz (latchHw sz hc)).foldl
             (fun b c => workerRun fsin fcos im stride ks c.1 c.2 b) buf)
    else (ks, workerRun fsin fcos im stride ks 0 sz buf)
  else (ks, workerRun fsin fcos im stride ks 0 sz buf)

def fsin0 : ℚ → ℚ := fun _ => 0

def fcos0 : ℚ → ℚ := fun _ => 1

def kpC : KeyPoint := ⟨100, 100, 7, 0⟩

def imZero : ℤ → Fin 256 := fun _ => 0

def imCols : ℤ → Fin 256 := fun a =>
  if a % 10000 = 89 ∨ a % 10000 = 90 ∨ a % 10000 = 91 then 255 else 0

def bufC : ℕ → Option ℕ := fun _ => some 0

def ksMany : List KeyPoint := List.replicate 321 kpC

lemma pix_nonneg (im : ℤ → Fin 256) (a : ℤ) : 0 ≤ pix im a := Int.ofNat_nonneg _

lemma pix_lt (im : ℤ → Fin 256) (a : ℤ) : pix im a < 256 := by
  unfold pix
  exact_mod_cast (im a).is_lt

lemma term_abs_le (a b c : ℤ) (ha0 : 0 ≤ a) (ha : a < 256) (hb0 : 0 ≤ b) (hb : b < 256)
    (hc0 : 0 ≤ c) (hc : c < 256) : |(a - b) ^ 2 - (c - b) ^ 2| ≤ 65025 := by
  rw [abs_le]
  constructor <;> nlinarith

lemma winSum_abs_le (im : ℤ → Fin 256) (stride ax ay bx bY cx cy : ℤ) :
    |winSum im stride ax ay bx bY cx cy| ≤ 4161600 := by
  unfold winSum
  have hcard : (Finset.Icc (-3 : ℤ) 4).card = 8 := by decide
  calc |∑ py ∈ Finset.Icc (-3 : ℤ) 4, ∑ dx ∈ Finset.Icc (-3 : ℤ) 4,
          ((pix im (stride * (ay + py) + ax + dx) - pix im (stride * (bY + py) + bx + dx)) ^ 2
           - (pix im (stride * (cy + py) + cx + dx) - pix im (stride * (bY + py) + bx + dx)) ^ 2)|
      ≤ ∑ py ∈ Finset.Icc (-3 : ℤ) 4, |∑ dx ∈ Finset.Icc (-3 : ℤ) 4,
          ((pix im (stride * (ay + py) + ax + dx) - pix im (stride * (bY + py) + bx + dx)) ^ 2
           - (pix im (stride * (cy + py) + cx + dx) - pix im (stride * (bY + py) + bx + dx)) ^ 2)| :=
        Finset.abs_sum_le_sum_abs _ _
    _ ≤ ∑ py ∈ Finset.Icc (-3 : ℤ) 4, (520200 : ℤ) := by
        refine Finset.sum_le_sum (fun py _ => ?_)
        calc |∑ dx ∈ Finset.Icc (-3 : ℤ) 4,
                ((pix im (stride * (ay + py) + ax + dx) - pix im (stride * (bY + py) + bx + dx)) ^ 2
                 - (pix im (stride * (cy + py) + cx + dx) - pix im (stride * (bY + py) + bx + dx)) ^ 2)|
            ≤ ∑ dx ∈ Finset.Icc (-3 : ℤ) 4, (65025 : ℤ) := by
              refine le_trans (Finset.abs_sum_le_sum_abs _ _) (Finset.sum_le_sum (fun dx _ => ?_))
              exact term_abs_le _ _ _ (pix_nonneg _ _) (pix_lt _ _) (pix_nonneg _ _) (pix_lt _ _)
                (pix_nonneg _ _) (pix_lt _ _)
          _ = 520200 := by rw [Finset.sum_const, hcard]; rfl
    _ = 4161600 := by rw [Finset.sum_const, hcard]; rfl

lemma tripletSum_abs_le (fsin fcos : ℚ → ℚ) (im : ℤ → Fin 256) (stride : ℤ)
    (kp : KeyPoint) (t : ℕ) : |tripletSum fsin fcos im stride kp t| ≤ 4161600 :=
  winSum_abs_le im stride _ _ _ _ _ _

lemma bitContrib_eq (n : ℤ) (bit : ℕ) (hb : bit ≤ 31) (hn : |n| ≤ 2147483647) :
    bitContrib n bit = if n < 0 then 2 ^ bit else 0 := by
  have habs := abs_le.mp hn
  have h2 : (2147483648 : ℕ) = 2 ^ 31 := by norm_num
  unfold bitContrib
  by_cases hneg : n < 0
  · have hm : n % 4294967296 = n + 4294967296 := by omega
    rw [hm, if_pos hneg]
    have hlo : 2 ^ 31 ≤ (n + 4294967296).toNat := by norm_num; omega
    have hhi : (n + 4294967296).toNat < 2 ^ 32 := by norm_num; omega
    have htb : (n + 4294967296).toNat.testBit 31 = true := by
      rw [Nat.testBit_to_div_mod]
      have hd : (n + 4294967296).toNat / 2 ^ 31 = 1 := by norm_num at hlo hhi ⊢; omega
      rw [hd]
      rfl
    have hand : (n + 4294967296).toNat &&& 2147483648 = 2 ^ 31 := by
      rw [h2, Nat.and_two_pow, htb]
      rfl
    rw [hand, Nat.shiftRight_eq_div_pow, Nat.pow_div (by omega) (by norm_num)]
    congr 1
    omega
  · have hm : n % 4294967296 = n := by omega
    rw [hm, if_neg hneg]
    have hlt : n.toNat < 2 ^ 31 := by norm_num; omega
    have hand : n.toNat &&& 2147483648 = 0 := by
      rw [h2, Nat.and_two_pow, Nat.testBit_lt_two_pow hlt]
      rfl
    rw [hand, Nat.zero_shiftRight]

lemma roundHalfEven_abs_le (q : ℚ) : |(roundHalfEven q : ℚ) - q| ≤ 1/2 := by
  unfold roundHalfEven
  have hf1 : (⌊q⌋ : ℚ) ≤ q := Int.floor_le q
  have hf2 : q < ⌊q⌋ + 1 := Int.lt_floor_add_one q
  split_ifs with h1 h2 h3 <;> rw [abs_le] <;> push_cast <;> constructor <;> linarith

lemma roundHalfEven_tie_even (n : ℤ) : Even (roundHalfEven ((n : ℚ) + 1/2)) := by
  have hf : ⌊(n : ℚ) + 1/2⌋ = n := by
    rw [Int.floor_eq_iff]
    constructor
    · linarith
    · linarith
  unfold roundHalfEven
  rw [hf]
  have hr : ((n : ℚ) + 1/2) - n = 1/2 := by ring
  rw [hr]
  simp only [lt_irrefl, if_false]
  by_cases he : Even n
  · simp [he]
  · simp [he, Int.even_add_one]

lemma minmax_eq_clamp (v : ℚ) :
    min (max v (-32)) 32 = if v < -32 then -32 else if 32 < v then 32 else v := by
  split_ifs with h1 h2
  · rw [max_eq_right h1.le, min_eq_left (by norm_num)]
  · rw [max_eq_left (not_lt.mp h1), min_eq_right h2.le]
  · rw [max_eq_left (not_lt.mp h1), min_eq_left (not_lt.mp h2)]

lemma descBytes_testBit (fsin fcos : ℚ → ℚ) (im : ℤ → Fin 256) (stride : ℤ)
    (kp : KeyPoint) (f b : ℕ) (hb : b < 8) :
    (descBytes fsin fcos im stride kp f).testBit b
      = decide (tripletSum fsin fcos im stride kp (8 * f + b) < 0) := by
  have hchar : ∀ i : ℕ, i ≤ 31 →
      bitContrib (tripletSum fsin fcos im stride kp (8 * f + i)) i
        = if tripletSum fsin fcos im stride kp (8 * f + i) < 0 then 2 ^ i else 0 :=
    fun i hi => bitContrib_eq _ i hi
      (le_trans (tripletSum_abs_le fsin fcos im stride kp _) (by norm_num))
  have h8 : List.range 8 = [0, 1, 2, 3, 4, 5, 6, 7] := rfl
  unfold descBytes
  rw [h8]
  simp only [List.foldl]
  rw [hchar 0 (by norm_num), hchar 1 (by norm_num), hchar 2 (by norm_num),
    hchar 3 (by norm_num), hchar 4 (by norm_num), hchar 5 (by norm_num),
    hchar 6 (by norm_num), hchar 7 (by norm_num)]
  have htp : ∀ (P : Prop) [Decidable P] (i j : ℕ),
      (if P then (2 : ℕ) ^ i else 0).testBit j = (decide P && decide (i = j)) := by
    intro P _ i j
    split_ifs with hP
    · simp [Nat.testBit_two_pow, hP]
    · simp [hP]
  interval_cases b <;>
    simp only [Nat.testBit_or, htp] <;> simp

lemma workerRun_empty (fsin fcos : ℚ → ℚ) (im : ℤ → Fin 256) (stride : ℤ)
    (ks : List KeyPoint) (s : ℕ) (buf : ℕ → Option ℕ) :
    workerRun fsin fcos im stride ks s 0 buf = buf := by
  funext j
  unfold workerRun
  rw [if_neg]
  omega

lemma foldl_workerRun_apply (fsin fcos : ℚ → ℚ) (im : ℤ → Fin 256) (stride : ℤ)
    (ks : List KeyPoint) (L : List (ℕ × ℕ)) :
    ∀ (buf : ℕ → Option ℕ) (j : ℕ),
    (L.foldl (fun b c => workerRun fsin fcos im stride ks c.1 c.2 b) buf) j
      = if ∃ c ∈ L, 64 * c.1 ≤ j ∧ j < 64 * (c.1 + c.2)
        then slotVal fsin fcos im stride ks j else buf j := by
  induction L with
  | nil => intro buf j; simp
  | cons c L ih =>
    intro buf j
    rw [List.foldl_cons, ih]
    by_cases hB : 64 * c.1 ≤ j ∧ j < 64 * (c.1 + c.2)
    · have hC : ∃ x ∈ c :: L, 64 * x.1 ≤ j ∧ j < 64 * (x.1 + x.2) :=
        ⟨c, List.mem_cons_self c L, hB⟩
      rw [if_pos hC]
      by_cases hA : ∃ x ∈ L, 64 * x.1 ≤ j ∧ j < 64 * (x.1 + x.2)
      · rw [if_pos hA]
      · rw [if_neg hA]
        unfold workerRun
        rw [if_pos hB]
    · by_cases hA : ∃ x ∈ L, 64 * x.1 ≤ j ∧ j < 64 * (x.1 + x.2)
      · have hC : ∃ x ∈ c :: L, 64 * x.1 ≤ j ∧ j < 64 * (x.1 + x.2) := by
          obtain ⟨x, hx, hj⟩ := hA
          exact ⟨x, List.mem_cons_of_mem c hx, hj⟩
        rw [if_pos hA, if_pos hC]
      · have hC : ¬ ∃ x ∈ c :: L, 64 * x.1 ≤ j ∧ j < 64 * (x.1 + x.2) := by
          rintro ⟨x, hx, hj⟩
          rcases List.mem_cons.mp hx with rfl | hx
          · exact hB hj
          · exact hA ⟨x, hx, hj⟩
        rw [if_neg hA, if_neg hC]
        unfold workerRun
        rw [if_neg hB]

lemma latchTs_pos (sz hw : ℕ) : 0 < latchTs sz hw := Nat.succ_le_succ (Nat.zero_le _)

lemma latchChunks_cover (sz hw : ℕ)
    (hcov : latchK sz hw * latchTs sz hw ≤ sz) (j : ℕ) :
    (∃ c ∈ latchChunks sz hw, 64 * c.1 ≤ j ∧ j < 64 * (c.1 + c.2)) ↔ j < 64 * sz := by
  have hts0 : 0 < latchTs sz hw := latchTs_pos sz hw
  constructor
  · rintro ⟨c, hc, h1, h2⟩
    unfold latchChunks at hc
    rw [List.mem_append] at hc
    rcases hc with hc | hc
    · rw [List.mem_map] at hc
      obtain ⟨i, hi, rfl⟩ := hc
      rw [List.mem_range] at hi
      calc j < 64 * (i * latchTs sz hw + latchTs sz hw) := h2
        _ = 64 * ((i + 1) * latchTs sz hw) := by ring_nf
        _ ≤ 64 * (latchK sz hw * latchTs sz hw) :=
            Nat.mul_le_mul_left 64 (Nat.mul_le_mul_right _ hi)
        _ ≤ 64 * sz := Nat.mul_le_mul_left 64 hcov
    · rw [List.mem_singleton] at hc
      subst hc
      simp only at h2
      calc j < 64 * (latchK sz hw * latchTs sz hw + (sz - latchK sz hw * latchTs sz hw)) := h2
        _ = 64 * sz := by rw [Nat.add_sub_cancel' hcov]
  · intro hj
    have hm : j / 64 < sz := by omega
    by_cases hcase : j / 64 < latchK sz hw * latchTs sz hw
    · refine ⟨(j / 64 / latchTs sz hw * latchTs sz hw, latchTs sz hw), ?_, ?_, ?_⟩
      · unfold latchChunks
        refine List.mem_append_left _ (List.mem_map.mpr ⟨j / 64 / latchTs sz hw,
          List.mem_range.mpr ?_, rfl⟩)
        exact (Nat.div_lt_iff_lt_mul hts0).mpr hcase
      · calc 64 * (j / 64 / latchTs sz hw * latchTs sz hw)
            ≤ 64 * (j / 64) := Nat.mul_le_mul_left 64 (Nat.div_mul_le_self _ _)
          _ ≤ j := by omega
      · have hlt : j / 64 < j / 64 / latchTs sz hw * latchTs sz hw + latchTs sz hw := by
          have hdm := Nat.div_add_mod (j / 64) (latchTs sz hw)
          have hmod := Nat.mod_lt (j / 64) hts0
          calc j / 64 = latchTs sz hw * (j / 64 / latchTs sz hw) + j / 64 % latchTs sz hw :=
                hdm.symm
            _ < latchTs sz hw * (j / 64 / latchTs sz hw) + latchTs sz hw :=
                Nat.add_lt_add_left hmod _
            _ = j / 64 / latchTs sz hw * latchTs sz hw + latchTs sz hw := by ring_nf
        calc j < 64 * (j / 64 + 1) := by omega
          _ ≤ 64 * (j / 64 / latchTs sz hw * latchTs sz hw + latchTs sz hw) :=
              Nat.mul_le_mul_left 64 hlt
    · refine ⟨(latchK sz hw * latchTs sz hw, sz - latchK sz hw * latchTs sz hw), ?_, ?_, ?_⟩
      · unfold latchChunks
        exact List.mem_append_right _ (List.mem_singleton.mpr rfl)
      · calc 64 * (latchK sz hw * latchTs sz hw) ≤ 64 * (j / 64) :=
            Nat.mul_le_mul_left 64 (not_lt.mp hcase)
          _ ≤ j := by omega
      · simp only
        rw [Nat.add_sub_cancel' hcov]
        exact hj

lemma slotVal_eq (fsin fcos : ℚ → ℚ) (im : ℤ → Fin 256) (stride : ℤ)
    (ks : List KeyPoint) (i r : ℕ) (kp : KeyPoint) (hr : r < 64)
    (hget : ks.get? i = some kp) :
    slotVal fsin fcos im stride ks (64 * i + r)
      = some (descBytes fsin fcos im stride kp r) := by
  unfold slotVal
  have hdiv : (64 * i + r) / 64 = i := by omega
  have hmod : (64 * i + r) % 64 = r := by omega
  rw [hdiv, hmod, hget]

/-- C1: for every keypoint and triplet the Patch Similarity Evaluator
computes the 8×8-window sum `Σ (A−B)² − Σ (C−B)²` exactly in 32-bit
signed arithmetic (`toInt32` is the identity on it), and the output bit
contribution is `2^bit` exactly when that sum is strictly negative; a
sum of zero contributes nothing. -/
theorem latch_bit_iff_negative_sum (fsin fcos : ℚ → ℚ) (im : ℤ → Fin 256)
    (stride : ℤ) (kp : KeyPoint) (t bit : ℕ) (hbit : bit < 8) :
    (toInt32 (tripletSum fsin fcos im stride kp t) = tripletSum fsin fcos im stride kp t)
    ∧ (bitContrib (tripletSum fsin fcos im stride kp t) bit
        = if tripletSum fsin fcos im stride kp t < 0 then 2 ^ bit else 0)
    ∧ (tripletSum fsin fcos im stride kp t = 0
        → bitContrib (tripletSum fsin fcos im stride kp t) bit = 0) := by
  have habs := abs_le.mp (tripletSum_abs_le fsin fcos im stride kp t)
  have hch := bitContrib_eq (tripletSum fsin fcos im stride kp t) bit (by omega)
    (le_trans (tripletSum_abs_le fsin fcos im stride kp t) (by norm_num))
  refine ⟨?_, hch, fun h0 => ?_⟩
  · unfold toInt32
    omega
  · rw [hch, if_neg (by omega)]

theorem latch_bit_iff_negative_sum_inst :
    (0 : ℕ) < 8
    ∧ (toInt32 (tripletSum fsin0 fcos0 imZero 1000 kpC 0) = tripletSum fsin0 fcos0 imZero 1000 kpC 0)
    ∧ (bitContrib (tripletSum fsin0 fcos0 imZero 1000 kpC 0) 0
        = if tripletSum fsin0 fcos0 imZero 1000 kpC 0 < 0 then 2 ^ 0 else 0)
    ∧ (tripletSum fsin0 fcos0 imZero 1000 kpC 0 = 0
        → bitContrib (tripletSum fsin0 fcos0 imZero 1000 kpC 0) 0 = 0) :=
  ⟨by decide, latch_bit_iff_negative_sum fsin0 fcos0 imZero 1000 kpC 0 0 (by decide)⟩

/-- C2 (amended): bit `b` of output byte `f` — with bits numbered from the
least significant — is decided by triplet `f*8+b`: the worker sets bit
`bit` (not bit `7−bit`) of byte `fragment` from the Evaluator result for
triplet `fragment*8+bit`, so triplet-in-byte index 0 lands in bit 0. -/
theorem descriptor_bit_order_lsb (fsin fcos : ℚ → ℚ) (im : ℤ → Fin 256)
    (stride : ℤ) (kp : KeyPoint) (f b : ℕ) (hf : f < 64) (hb : b < 8) :
    (descBytes fsin fcos im stride kp f).testBit b
      = decide (tripletSum fsin fcos im stride kp (8 * f + b) < 0) :=
  descBytes_testBit fsin fcos im stride kp f b hb

theorem descriptor_bit_order_lsb_inst :
    (0 : ℕ) < 64 ∧ (0 : ℕ) < 8
    ∧ (descBytes fsin0 fcos0 imZero 1000 kpC 0).testBit 0
        = decide (tripletSum fsin0 fcos0 imZero 1000 kpC (8 * 0 + 0) < 0) :=
  ⟨by decide, by decide,
    descriptor_bit_order_lsb fsin0 fcos0 imZero 1000 kpC 0 0 (by decide) (by decide)⟩

/-- C2 (counterexample to the claimed MSB-first packing): on a concrete
image and keypoint, the Evaluator result for triplet 0 (= fragment 0,
triplet-in-byte index 0) is 1 — its window sum is negative — yet bit
`7 − 0 = 7` of output byte 0 is clear: the byte is 1, i.e. bit 0 is set. -/
theorem descriptor_msb_packing_cx :
    tripletSum fsin0 fcos0 imCols 10000 kpC 0 < 0
    ∧ (descBytes fsin0 fcos0 imCols 10000 kpC 0).testBit 7 = false
    ∧ descBytes fsin0 fcos0 imCols 10000 kpC 0 = 1 := by
  refine ⟨?_, ?_, ?_⟩ <;> with_unfolding_all decide

/-- C3: the Keypoint Border Filter keeps exactly the keypoints with
`¬(x ≤ 36 ∨ y ≤ 36 ∨ x ≥ width−36 ∨ y ≥ height−36)`, preserving the
relative order (the result is a sublist); a keypoint at `x = 36` is
removed and one at `x = 37` with matching margins elsewhere is kept. -/
theorem border_filter_exact (w h : ℤ) (ks : List KeyPoint) :
    (borderFilter w h ks).Sublist ks
    ∧ (∀ kp, kp ∈ borderFilter w h ks
        ↔ kp ∈ ks ∧ ¬(kp.x ≤ 36 ∨ kp.y ≤ 36 ∨ (w : ℚ) - 36 ≤ kp.x ∨ (h : ℚ) - 36 ≤ kp.y))
    ∧ borderFilter 1000 1000 [⟨36, 100, 1, 0⟩, ⟨37, 100, 1, 0⟩] = [⟨37, 100, 1, 0⟩] := by
  refine ⟨List.filter_sublist _, fun kp => ?_, by with_unfolding_all decide⟩
  unfold borderFilter borderPred
  rw [List.mem_filter]
  constructor
  · rintro ⟨hm, hp⟩
    refine ⟨hm, fun hor => ?_⟩
    simp only [Bool.not_eq_true', Bool.or_eq_false_iff, decide_eq_false_iff_not] at hp
    push_cast at hp
    rcases hor with h1 | h1 | h1 | h1 <;> tauto
  · rintro ⟨hm, hp⟩
    refine ⟨hm, ?_⟩
    simp only [Bool.not_eq_true', Bool.or_eq_false_iff, decide_eq_false_iff_not]
    push_cast
    tauto

/-- C6: the sample-center pipeline of the source (scale, rotate, clamp via
max/min, translate, convert) agrees with the spec formula (clamp each
rotated coordinate to [-32,32], translate by the keypoint center, round
half to even), and the conversion is round-to-nearest with ties to even. -/
theorem sample_center_refines_spec (fsin fcos : ℚ → ℚ) (kp : KeyPoint) (ox oy : ℚ) :
    sampleX fsin fcos kp ox oy = specSampleX fsin fcos kp ox oy
    ∧ sampleY fsin fcos kp ox oy = specSampleY fsin fcos kp ox oy
    ∧ (∀ q : ℚ, |(roundHalfEven q : ℚ) - q| ≤ 1/2)
    ∧ (∀ n : ℤ, Even (roundHalfEven ((n : ℚ) + 1/2))) := by
  refine ⟨?_, ?_, roundHalfEven_abs_le, roundHalfEven_tie_even⟩
  · unfold sampleX specSampleX
    rw [minmax_eq_clamp, add_comm]
  · unfold sampleY specSampleY
    rw [minmax_eq_clamp, add_comm]

/-- C7: on an image of constant intensity, every triplet of every keypoint
accumulates a window sum of exactly 0, so every descriptor byte is 0. -/
theorem uniform_image_zero_descriptor (fsin fcos : ℚ → ℚ) (im : ℤ → Fin 256)
    (stride : ℤ) (kp : KeyPoint) (c : Fin 256) (him : ∀ a, im a = c) :
    (∀ t, tripletSum fsin fcos im stride kp t = 0)
    ∧ (∀ fragment, descBytes fsin fcos im stride kp fragment = 0) := by
  have hz : ∀ t, tripletSum fsin fcos im stride kp t = 0 := by
    intro t
    unfold tripletSum winSum
    refine Finset.sum_eq_zero (fun py _ => Finset.sum_eq_zero (fun dx _ => ?_))
    unfold pix
    rw [him, him, him]
    ring
  refine ⟨hz, fun fragment => ?_⟩
  unfold descBytes
  have h8 : List.range 8 = [0, 1, 2, 3, 4, 5, 6, 7] := rfl
  rw [h8]
  simp only [List.foldl, hz]
  rfl

theorem uniform_image_zero_descriptor_inst :
    (∀ a : ℤ, imZero a = (0 : Fin 256))
    ∧ (∀ t, tripletSum fsin0 fcos0 imZero 1000 kpC t = 0)
    ∧ (∀ fragment, descBytes fsin0 fcos0 imZero 1000 kpC fragment = 0) :=
  ⟨fun _ => rfl,
    uniform_image_zero_descriptor fsin0 fcos0 imZero 1000 kpC 0 (fun _ => rfl)⟩

/-- C4 (amended): single-threaded and multithreaded dispatch produce the
same filtered keypoint list and bit-identical output buffers whenever the
chunk partition does not overrun the filtered range, i.e. when the start
of the final chunk, `latchK sz w * latchTs sz w`, is at most `sz`; this
holds in particular for every effective worker count `w ≤ 17`. -/
theorem thread_equivalence (fsin fcos : ℚ → ℚ) (im : ℤ → Fin 256)
    (stride w h : ℤ) (ks0 : List KeyPoint) (hc : ℕ) (buf : ℕ → Option ℕ)
    (hcov : latchK (borderFilter w h ks0).length (latchHw (borderFilter w h ks0).length hc)
        * latchTs (borderFilter w h ks0).length (latchHw (borderFilter w h ks0).length hc)
      ≤ (borderFilter w h ks0).length) :
    runLATCH true hc fsin fcos im stride w h ks0 buf
      = runLATCH false hc fsin fcos im stride w h ks0 buf := by
  unfold runLATCH
  rw [if_pos rfl, if_neg (fun hft => Bool.false_ne_true hft)]
  by_cases hhw : 1 < latchHw (borderFilter w h ks0).length hc
  · rw [if_pos hhw]
    have hbuf : (latchChunks (borderFilter w h ks0).length
          (latchHw (borderFilter w h ks0).length hc)).foldl
        (fun b c => workerRun fsin fcos im stride (borderFilter w h ks0) c.1 c.2 b) buf
        = workerRun fsin fcos im stride (borderFilter w h ks0) 0
            (borderFilter w h ks0).length buf := by
      funext j
      rw [foldl_workerRun_apply fsin fcos im stride (borderFilter w h ks0)
        (latchChunks (borderFilter w h ks0).length
          (latchHw (borderFilter w h ks0).length hc)) buf j]
      rw [if_congr (latchChunks_cover (borderFilter w h ks0).length
          (latchHw (borderFilter w h ks0).length hc) hcov j) rfl rfl]
      unfold workerRun
      rw [if_congr (by omega : j < 64 * (borderFilter w h ks0).length
          ↔ 64 * 0 ≤ j ∧ j < 64 * (0 + (borderFilter w h ks0).length)) rfl rfl]
    rw [hbuf]
  · rw [if_neg hhw]

set_option maxRecDepth 40000 in
theorem thread_equivalence_inst :
    (latchK (borderFilter 1000 1000 [kpC]).length
        (latchHw (borderFilter 1000 1000 [kpC]).length 5)
      * latchTs (borderFilter 1000 1000 [kpC]).length
        (latchHw (borderFilter 1000 1000 [kpC]).length 5)
      ≤ (borderFilter 1000 1000 [kpC]).length)
    ∧ runLATCH true 5 fsin0 fcos0 imZero 1000 1000 1000 [kpC] bufC
        = runLATCH false 5 fsin0 fcos0 imZero 1000 1000 1000 [kpC] bufC :=
  ⟨by with_unfolding_all decide,
    thread_equivalence fsin0 fcos0 imZero 1000 1000 1000 [kpC] 5 bufC
      (by with_unfolding_all decide)⟩

set_option maxRecDepth 100000 in
/-- C4 (counterexample to the unconditional claim): with 321 surviving
keypoints and a reported hardware concurrency of 20, the multithreaded
dispatch launches 19 full chunks of 17 covering `[0, 323)`, so descriptor
slot 321 — one past the filtered range — is written (its value is not
determined by the model: the source reads `keypoints[321]` out of
bounds), while the single-threaded path leaves that byte untouched: the
two output buffers differ at byte offset `64 * 321 = 20544`. -/
theorem thread_equivalence_cx :
    ¬ (runLATCH true 20 fsin0 fcos0 imZero 1000 1000 1000 ksMany bufC
        = runLATCH false 20 fsin0 fcos0 imZero 1000 1000 1000 ksMany bufC) := by
  intro hEq
  have hmt : (runLATCH true 20 fsin0 fcos0 imZero 1000 1000 1000 ksMany bufC).2 20544
      = none := by with_unfolding_all decide
  have hst : (runLATCH false 20 fsin0 fcos0 imZero 1000 1000 1000 ksMany bufC).2 20544
      = some 0 := by with_unfolding_all decide
  rw [hEq, hst] at hmt
  exact Option.noConfusion hmt

set_option maxRecDepth 100000 in
/-- C5 (evidence of the divergence): with 321 filtered keypoints and
hardware concurrency 20 the multithreaded path is taken (worker count
20 > 1), yet the workers process 323 indices — among them 321 and 322,
which lie outside `[0, 321)` — instead of partitioning `[0, 321)`
exactly; the final worker receives a negative count and processes
nothing. -/
theorem chunk_partition_overrun :
    1 < latchHw 321 20
    ∧ (latchProcessed 321 (latchHw 321 20)).length = 323
    ∧ 321 ∈ latchProcessed 321 (latchHw 321 20)
    ∧ 322 ∈ latchProcessed 321 (latchHw 321 20)
    ∧ latchChunks 321 (latchHw 321 20)
        = (List.range 19).map (fun i => (17 * i, 17)) ++ [(323, 0)] := by
  refine ⟨by decide, by decide, by decide, by decide, by decide⟩

/-- C8: the multithreaded entry point computes the worker count as
`min(filteredCount / 16, hardware_concurrency)`; when it is at most 1 the
whole filtered range is handled by one sequential worker call, and when
the filter leaves no keypoints the call returns with the buffer
unchanged. -/
theorem dispatch_degenerate_cases (fsin fcos : ℚ → ℚ) (im : ℤ → Fin 256)
    (stride w h : ℤ) (ks0 : List KeyPoint) (hc : ℕ) (buf : ℕ → Option ℕ) :
    (latchHw (borderFilter w h ks0).length hc
        = min ((borderFilter w h ks0).length / 16) hc)
    ∧ (latchHw (borderFilter w h ks0).length hc ≤ 1 →
        runLATCH true hc fsin fcos im stride w h ks0 buf
          = (borderFilter w h ks0,
             workerRun fsin fcos im stride (borderFilter w h ks0) 0
               (borderFilter w h ks0).length buf))
    ∧ (borderFilter w h ks0 = [] →
        runLATCH true hc fsin fcos im stride w h ks0 buf = ([], buf)) := by
  refine ⟨rfl, fun hle => ?_, fun hnil => ?_⟩
  · unfold runLATCH
    rw [if_pos rfl, if_neg (by omega)]
  · unfold runLATCH
    rw [if_pos rfl]
    simp only [hnil, List.length_nil]
    rw [if_neg (by unfold latchHw; omega)]
    rw [workerRun_empty]

theorem dispatch_degenerate_cases_inst :
    (latchHw (borderFilter 1000 1000 [(⟨10, 10, 1, 0⟩ : KeyPoint)]).length 4 ≤ 1)
    ∧ borderFilter 1000 1000 [(⟨10, 10, 1, 0⟩ : KeyPoint)] = []
    ∧ runLATCH true 4 fsin0 fcos0 imZero 1000 1000 1000 [⟨10, 10, 1, 0⟩] bufC
        = ([], bufC) :=
  ⟨by with_unfolding_all decide, by with_unfolding_all decide,
    (dispatch_degenerate_cases fsin0 fcos0 imZero 1000 1000 1000 [⟨10, 10, 1, 0⟩] 4 bufC).2.2
      (by with_unfolding_all decide)⟩

/-- C9: a Descriptor Worker whose range stays inside the filtered list
writes only bytes `64*start .. 64*(start+count) − 1`; the bytes of slot
`i` are a pure function of the keypoint, the image and the triplet table
(the prior buffer does not appear in the result), and every byte at
offset `64 * filteredCount` or beyond keeps its previous value. -/
theorem worker_frame_purity (fsin fcos : ℚ → ℚ) (im : ℤ → Fin 256) (stride : ℤ)
    (ks : List KeyPoint) (start count : ℕ) (buf : ℕ → Option ℕ)
    (hrange : start + count ≤ ks.length) :
    (∀ j, j < 64 * start ∨ 64 * (start + count) ≤ j →
        workerRun fsin fcos im stride ks start count buf j = buf j)
    ∧ (∀ i kp r, start ≤ i → i < start + count → r < 64 → ks.get? i = some kp →
        workerRun fsin fcos im stride ks start count buf (64 * i + r)
          = some (descBytes fsin fcos im stride kp r))
    ∧ (∀ j, 64 * ks.length ≤ j →
        workerRun fsin fcos im stride ks start count buf j = buf j) := by
  refine ⟨fun j hj => ?_, fun i kp r h1 h2 h3 h4 => ?_, fun j hj => ?_⟩
  · unfold workerRun
    rw [if_neg (by omega)]
  · unfold workerRun
    rw [if_pos (by omega), slotVal_eq fsin fcos im stride ks i r kp h3 h4]
  · unfold workerRun
    rw [if_neg (by omega)]

theorem worker_frame_purity_inst :
    ((0 : ℕ) + 1 ≤ [kpC].length)
    ∧ workerRun fsin0 fcos0 imZero 1000 [kpC] 0 1 bufC 64 = bufC 64
    ∧ workerRun fsin0 fcos0 imZero 1000 [kpC] 0 1 bufC (64 * 0 + 3)
        = some (descBytes fsin0 fcos0 imZero 1000 kpC 3) :=
  ⟨by decide,
    (worker_frame_purity fsin0 fcos0 imZero 1000 [kpC] 0 1 bufC (by decide)).1 64
      (Or.inr (by decide)),
    (worker_frame_purity fsin0 fcos0 imZero 1000 [kpC] 0 1 bufC (by decide)).2.1 0 kpC 3
      (by decide) (by decide) (by decide) (by decide)⟩

/-- C10: when the image is at most 72 pixels wide or tall the border
predicate holds for every keypoint, so the filter removes them all, the
returned list is empty and the output buffer is unchanged. -/
theorem small_image_removes_all (fsin fcos : ℚ → ℚ) (im : ℤ → Fin 256)
    (stride : ℤ) (w h : ℤ) (ks0 : List KeyPoint) (hc : ℕ) (buf : ℕ → Option ℕ)
    (mt : Bool) (hwh : w ≤ 72 ∨ h ≤ 72) :
    (∀ kp ∈ ks0, borderPred w h kp = true)
    ∧ borderFilter w h ks0 = []
    ∧ runLATCH mt hc fsin fcos im stride w h ks0 buf = ([], buf) := by
  have hpred : ∀ kp : KeyPoint, borderPred w h kp = true := by
    intro kp
    unfold borderPred
    rcases hwh with hw | hh
    · by_cases hx : kp.x ≤ 36
      · simp [hx]
      · have h1 : (w : ℚ) - 36 ≤ kp.x := by
          have h2 : (w : ℚ) ≤ 72 := by exact_mod_cast hw
          linarith [not_le.mp hx]
        simp
        exact Or.inl (Or.inr (by linarith))
    · by_cases hy : kp.y ≤ 36
      · simp [hy]
      · have h1 : (h : ℚ) - 36 ≤ kp.y := by
          have h2 : (h : ℚ) ≤ 72 := by exact_mod_cast hh
          linarith [not_le.mp hy]
        simp
        exact Or.inr (by linarith)
  have hnil : borderFilter w h ks0 = [] := by
    unfold borderFilter
    rw [List.filter_eq_nil_iff]
    intro kp _
    simp [hpred kp]
  refine ⟨fun kp _ => hpred kp, hnil, ?_⟩
  cases mt
  · unfold runLATCH
    rw [if_neg (fun hft => Bool.false_ne_true hft)]
    simp only [hnil, List.length_nil]
    rw [workerRun_empty]
  · unfold runLATCH
    rw [if_pos rfl]
    simp only [hnil, List.length_nil]
    rw [if_neg (by unfold latchHw; omega)]
    rw [workerRun_empty]

theorem small_image_removes_all_inst :
    ((50 : ℤ) ≤ 72 ∨ (1000 : ℤ) ≤ 72)
    ∧ (∀ kp ∈ [(⟨40, 40, 1, 0⟩ : KeyPoint)], borderPred 50 1000 kp = true)
    ∧ borderFilter 50 1000 [(⟨40, 40, 1, 0⟩ : KeyPoint)] = []
    ∧ runLATCH true 4 fsin0 fcos0 imZero 1000 50 1000 [⟨40, 40, 1, 0⟩] bufC
        = ([], bufC) :=
  ⟨Or.inl (by decide),
    small_image_removes_all fsin0 fcos0 imZero 1000 50 1000 [⟨40, 40, 1, 0⟩] 4 bufC true
      (Or.inl (by decide))⟩

theorem border_filter_exact_inst :
    (borderFilter 1000 1000 [kpC]).Sublist [kpC] :=
  (border_filter_exact 1000 1000 [kpC]).1

theorem sample_center_refines_spec_inst :
    sampleX fsin0 fcos0 kpC 3 4 = specSampleX fsin0 fcos0 kpC 3 4 :=
  (sample_center_refines_spec fsin0 fcos0 kpC 3 4).1
